import Mathlib

/-!
Shallow embedding of the configuration-and-dispatch core of the
`developer-platform-client-ts` SDK, translated from the TypeScript sources:

* `src/lib/client/Client.ts` — the configuration store (`Client.init`,
  `Client.getApiKey`, `Client.getProvider`);
* `src/lib/client/Cronosid.ts` — CronosId validation, chain gating and
  the `forwardResolve` / `reverseResolve` facades;
* `src/integrations/*.api.ts` — the per-endpoint request dispatchers
  (`resolveName`, `lookupAddress`, `getNativeTokenBalance`,
  `getERC20TokenBalance`, `getBalance`, `createWallet`, `getBlockByTag`);
* `src/lib/client/Wallet.ts`, `Token.ts`, `Block.ts` — resource facades.

JavaScript strings are modelled by Lean `String` / `List Char`;
`String.prototype.toLowerCase` is modelled per character by `Char.toLower`
(ASCII case mapping), which agrees with JavaScript on every input the
claims exercise.  The HTTP transport is modelled as an explicit oracle
(`FetchOutcome`) supplied to each operation — the mocked transport of the
spec's testable properties.  Each operation returns its result
(`Except Err Json`), the list of requests it issued, and the lines it
wrote to the console error log.
-/

/-! ### JS string primitives used by `CronosId.isCronosId` -/

/-- `beginsWith pat s` : does `s` start with the character list `pat`?
The prefix test underlying `String.prototype.split` and
`String.prototype.endsWith`. -/
def beginsWith : List Char → List Char → Bool
  | [], _ => true
  | _ :: _, [] => false
  | p :: ps, c :: cs => p == c && beginsWith ps cs

/-- The separator literal `'.cro'` of `Cronosid.ts`. -/
def croChars : List Char := ['.', 'c', 'r', 'o']

/-- `endsWithL pat s` : does `s` end with `pat`?  Model of
`String.prototype.endsWith`. -/
def endsWithL (pat s : List Char) : Bool := beginsWith pat.reverse s.reverse

/-- Worker for `splitCro`.  The first argument counts separator characters
still to be skipped after a match of `'.cro'` (the separator has length
four: one character consumed by the match position plus three skipped
here), so that every recursive call peels exactly one list cell and the
definition is structural — hence kernel-computable. -/
def splitCroAux : Nat → List Char → List (List Char)
  | _, [] => [[]]
  | Nat.succ n, _ :: cs => splitCroAux n cs
  | 0, c :: cs =>
    if beginsWith croChars (c :: cs) then
      [] :: splitCroAux 3 cs
    else
      match splitCroAux 0 cs with
      | [] => [[c]]
      | h :: t => (c :: h) :: t

/-- Model of `lowercaseName.split('.cro')` from `Cronosid.isCronosId`:
splits on each non-overlapping occurrence of `'.cro'`, left to right,
returning the list of segments (never empty, like the JS array). -/
def splitCro (l : List Char) : List (List Char) := splitCroAux 0 l

/-- `name.toLowerCase()` modelled per character. -/
def jsLower (s : List Char) : List Char := s.map Char.toLower

/-- `CronosId.isCronosId` on character lists, translated line by line from
`src/lib/client/Cronosid.ts`:
`const lowercaseName = name.toLowerCase();`
`const parts = lowercaseName.split('.cro');`
`return lowercaseName.endsWith('.cro') && parts[0].length > 0;`
(`parts[0]` is safe in the source because `split` never returns an empty
array; `splitCro_ne_nil` below proves the counterpart, so `headD []`
reads the same element.) -/
def isCronosIdL (name : List Char) : Bool :=
  let lowercaseName := jsLower name
  let parts := splitCro lowercaseName
  endsWithL croChars lowercaseName && decide (0 < (parts.headD []).length)

/-- `CronosId.isCronosId` on Lean strings. -/
def isCronosId (name : String) : Bool := isCronosIdL name.data

/-- Specification-side function, written from the claim's words, not from
the code: the substring of `s` before the first occurrence of `'.cro'`
(`s` itself when there is no occurrence). -/
def beforeFirstCro : List Char → List Char
  | [] => []
  | c :: cs =>
    if beginsWith croChars (c :: cs) then [] else c :: beforeFirstCro cs

/-! ### Error taxonomy

The source throws plain `Error` values everywhere; the spec's taxonomy
(ConfigurationError / ValidationError / RemoteError / TransportError)
labels each throw site by its origin.  The embedding carries that label
alongside the exact message the source builds. -/

inductive ErrKind where
  | config
  | validation
  | remote
  | transport
deriving DecidableEq, Repr

structure Err where
  kind : ErrKind
  msg : String
deriving DecidableEq, Repr

/-! ### JSON values and the JS coercions the dispatcher relies on -/

/-- Parsed JSON, the payload shape of every request/response body. -/
inductive Json where
  | null
  | bool (b : Bool)
  | num (n : Int)
  | str (s : String)
  | arr (xs : List Json)
  | obj (fields : List (String × Json))

/-- First matching key, as in an already-parsed JS object. -/
def jsonLookup : List (String × Json) → String → Option Json
  | [], _ => none
  | (k, v) :: rest, key => if k = key then some v else jsonLookup rest key

/-- JS truthiness, as used by `errorBody.error || ...`. -/
def truthy : Json → Bool
  | .null => false
  | .bool b => b
  | .num n => n != 0
  | .str s => decide (s ≠ "")
  | .arr _ => true
  | .obj _ => true

mutual

/-- `String(v)` — the coercion `new Error(v)` applies to its argument. -/
def jsString : Json → String
  | .null => "null"
  | .bool true => "true"
  | .bool false => "false"
  | .num n => toString n
  | .str s => s
  | .arr xs => jsStringList xs
  | .obj _ => "[object Object]"

/-- `Array.prototype.toString`: elements joined with `,`, where a `null`
element stringifies to the empty string. -/
def jsStringList : List Json → String
  | [] => ""
  | [Json.null] => ""
  | [x] => jsString x
  | Json.null :: rest => "," ++ jsStringList rest
  | x :: rest => jsString x ++ "," ++ jsStringList rest

end

/-- Property read `v.error`: throws a `TypeError` when the base is `null`
(the only non-object JSON base that throws), yields `undefined` (`none`)
when the field is absent or the base is a non-null non-object. -/
def getField : Json → String → Except String (Option Json)
  | .null, k => .error ("Cannot read properties of null (reading '" ++ k ++ "')")
  | .obj fs, k => .ok (jsonLookup fs k)
  | _, _ => .ok none

/-! ### Configuration store — `src/lib/client/Client.ts` -/

/-- `ChainName` from `src/lib/utils/chain.utils.ts` (re-exported through
`transaction.interfaces.ts`). -/
inductive ChainName where
  | CRONOS_EVM
  | CRONOS_EVM_TESTNET
  | CRONOS_ZKEVM
  | CRONOS_ZKEVM_TESTNET
deriving DecidableEq, Repr

/-- The string value of each enum member of `ChainName`. -/
def ChainName.value : ChainName → String
  | .CRONOS_EVM => "Cronos EVM Mainnet"
  | .CRONOS_EVM_TESTNET => "Cronos EVM Testnet"
  | .CRONOS_ZKEVM => "Cronos ZK EVM Mainnet"
  | .CRONOS_ZKEVM_TESTNET => "Cronos ZK EVM Testnet"

/-- The `Config` interface of `Client.ts`:
`{ apiKey: string; provider?: string }`. -/
structure Config where
  apiKey : String
  provider : Option String

/-- The static fields of the `Client` class.  `apiKey` and `provider` are
`undefined` (`none`) until `init` stores them.  `chain` — Modelled from
the spec: the stored chain identity read by `getChainId()` ("where
present: returns stored chain identity; used by chain-gated facades");
the chain-storing variant of `Client.ts` is not among the included
sources, only its reader `Client.getChainId()` is called from
`Cronosid.ts`. -/
structure ClientState where
  apiKey : Option String
  provider : Option String
  chain : Option ChainName
deriving DecidableEq, Repr

namespace Client

/-- State before any call: every static field `undefined`. -/
def initialState : ClientState := ⟨none, none, none⟩

/-- `Client.init(config)`: `this.apiKey = config.apiKey;
this.provider = config.provider;` — a plain overwrite on every call. -/
def init (config : Config) (st : ClientState) : ClientState :=
  { st with apiKey := some config.apiKey, provider := config.provider }

/-- The error thrown by `Client.getApiKey` when the key is unset. -/
def configErr : Err :=
  ⟨.config, "API key not configured. Call Client.init(\x7b apiKey: 'your-api-key' \x7d) first."⟩

/-- `Client.getApiKey()`: `if (!this.apiKey) throw ...; return this.apiKey;`
`!x` is true exactly for the unset field and the empty string. -/
def getApiKey (st : ClientState) : Except Err String :=
  match st.apiKey with
  | none => .error configErr
  | some k => if k = "" then .error configErr else .ok k

/-- `Client.getProvider()`: `return this.provider;` — total, no check. -/
def getProvider (st : ClientState) : Option String := st.provider

/-- Modelled from the spec: `getChainId()` "returns stored chain
identity"; the variant of `Client.ts` defining it is not among the
included sources. -/
def getChainId (st : ClientState) : Option ChainName := st.chain

end Client

/-! ### The transport oracle and the per-endpoint dispatcher -/

/-- One outbound HTTP request as `fetch` receives it. -/
structure Request where
  method : String
  url : String
  headers : List (String × String)
  body : Option Json

/-- What `response.json()` yields for the single response body. -/
inductive BodyOutcome where
  | malformed (msg : String)
  | parsed (v : Json)

/-- The mocked transport's behaviour for the one `fetch` call an
operation performs: rejection, or a response with a status code and a
body. -/
inductive FetchOutcome where
  | netErr (msg : String)
  | resp (status : Nat) (body : BodyOutcome)

/-- Result of one operation: the value returned or error thrown, the
requests handed to `fetch`, and the `console.error` lines. -/
structure Outcome where
  result : Except Err Json
  sent : List Request
  logs : List String

/-- `response.ok`: status in the inclusive range 200–299. -/
def respOk (status : Nat) : Bool := 200 ≤ status && status ≤ 299

/-- `Modelled from the spec:` the fixed base URL
(`src/lib/constants/global.constants.ts` is not among the included
sources).  Its concrete value decides nothing: every theorem treats it
as an opaque prefix. -/
def BASE_URL : String := "https://developer-platform-api.crypto.com"

/-- The header object every embedded endpoint passes to `fetch`. -/
def stdHeaders (apiKey : String) : List (String × String) :=
  [("Content-Type", "application/json"), ("x-api-key", apiKey)]

/-- `errorBody.error || ` ``HTTP error! status: ${response.status}`` —
the message of the throw on a non-2xx status. -/
def serverMsg (status : Nat) (errorField : Option Json) : String :=
  match errorField with
  | some v => if truthy v then jsString v else "HTTP error! status: " ++ toString status
  | none => "HTTP error! status: " ++ toString status

/-- The try/fetch/status-check/parse/catch block that every function of
`src/integrations/*.api.ts` repeats verbatim (the spec's Request
Dispatcher), with the endpoint's request, console tag
(e.g. `"[tokenApi/getNativeTokenBalance]"`) and rethrow prefix
(e.g. `"Failed to fetch native token balance: "`) as parameters:

* `fetch` rejection → caught: log `` `${tag} - ${msg}` ``, throw
  `` `${wrap}${msg}` `` (TransportError);
* non-2xx status → `errorBody.error || 'HTTP error! status: …'` thrown
  (RemoteError), then caught and rewrapped the same way — the kind label
  records the origin, the message gains the wrap prefix;
* a `response.json()` failure, or the `TypeError` from `errorBody.error`
  on a `null` body → caught and wrapped (TransportError);
* 2xx with parseable body → the parsed value returned unchanged. -/
def dispatch (req : Request) (tag wrap : String) (f : FetchOutcome) : Outcome :=
  match f with
  | .netErr m => ⟨.error ⟨.transport, wrap ++ m⟩, [req], [tag ++ " - " ++ m]⟩
  | .resp status b =>
    if respOk status then
      match b with
      | .parsed v => ⟨.ok v, [req], []⟩
      | .malformed m => ⟨.error ⟨.transport, wrap ++ m⟩, [req], [tag ++ " - " ++ m]⟩
    else
      match b with
      | .malformed m => ⟨.error ⟨.transport, wrap ++ m⟩, [req], [tag ++ " - " ++ m]⟩
      | .parsed v =>
        match getField v "error" with
        | .error tm => ⟨.error ⟨.transport, wrap ++ tm⟩, [req], [tag ++ " - " ++ tm]⟩
        | .ok ef =>
          let m := serverMsg status ef
          ⟨.error ⟨.remote, wrap ++ m⟩, [req], [tag ++ " - " ++ m]⟩

/-! ### Endpoint wrappers — `src/integrations/*.api.ts`

Each is the dispatcher instantiated with the endpoint's literal URL
template, tag and rethrow prefix, exactly as the source file builds
them. -/

namespace CronosidApi

/-- `resolveName(apiKey, name)` from `cronosid.api.ts`. -/
def resolveName (apiKey name : String) (f : FetchOutcome) : Outcome :=
  dispatch
    ⟨"GET", BASE_URL ++ "/api/v1/cdc-developer-platform/cronosid/resolve/" ++ name,
      stdHeaders apiKey, none⟩
    "[cronosidApi/resolveName]" "Failed to resolve name: " f

/-- `lookupAddress(apiKey, address)` from `cronosid.api.ts`. -/
def lookupAddress (apiKey address : String) (f : FetchOutcome) : Outcome :=
  dispatch
    ⟨"GET", BASE_URL ++ "/api/v1/cdc-developer-platform/cronosid/lookup/" ++ address,
      stdHeaders apiKey, none⟩
    "[cronosidApi/lookupAddress]" "Failed to lookup address: " f

end CronosidApi

namespace TokenApi

/-- `getNativeTokenBalance(apiKey, walletAddress)` from `token.api.ts`. -/
def getNativeTokenBalance (apiKey walletAddress : String) (f : FetchOutcome) : Outcome :=
  dispatch
    ⟨"GET",
      BASE_URL ++ "/api/v1/cdc-developer-platform/token/native-token-balance?walletAddress="
        ++ walletAddress,
      stdHeaders apiKey, none⟩
    "[tokenApi/getNativeTokenBalance]" "Failed to fetch native token balance: " f

/-- `getERC20TokenBalance(apiKey, walletAddress, contractAddress,
blockHeight = 'latest')` from `token.api.ts`.  The optional parameter's
default is declared exactly as in the source. -/
def getERC20TokenBalance (apiKey walletAddress contractAddress : String)
    (f : FetchOutcome) (blockHeight : String := "latest") : Outcome :=
  dispatch
    ⟨"GET",
      BASE_URL ++ "/api/v1/cdc-developer-platform/token/erc20-token-balance?walletAddress="
        ++ walletAddress ++ "&contractAddress=" ++ contractAddress
        ++ "&blockHeight=" ++ blockHeight,
      stdHeaders apiKey, none⟩
    "[tokenApi/getERC20TokenBalance]" "Failed to fetch ERC20 token balance: " f

end TokenApi

namespace WalletApi

/-- `createWallet(apiKey)` from `wallet.api.ts` (POST, no body). -/
def createWallet (apiKey : String) (f : FetchOutcome) : Outcome :=
  dispatch
    ⟨"POST", BASE_URL ++ "/api/v1/cdc-developer-platform/wallet", stdHeaders apiKey, none⟩
    "[walletApi/createWallet]" "Failed to create wallet: " f

/-- `getBalance(apiKey, walletAddress)` from `wallet.api.ts`. -/
def getBalance (apiKey walletAddress : String) (f : FetchOutcome) : Outcome :=
  dispatch
    ⟨"GET",
      BASE_URL ++ "/api/v1/cdc-developer-platform/wallet/balance?walletAddress="
        ++ walletAddress,
      stdHeaders apiKey, none⟩
    "[walletApi/getBalance]" "Failed to fetch wallet balance: " f

end WalletApi

namespace BlockApi

/-- `getBlockByTag(apiKey, blockTag, txDetail = 'false')` from
`transaction.api.ts`. -/
def getBlockByTag (apiKey blockTag : String) (f : FetchOutcome)
    (txDetail : String := "false") : Outcome :=
  dispatch
    ⟨"GET",
      BASE_URL ++ "/api/v1/cdc-developer-platform/block/block-tag?blockTag="
        ++ blockTag ++ "&txDetail=" ++ txDetail,
      stdHeaders apiKey, none⟩
    "[blockApi/getBlockByTag]" "Failed to fetch block by tag: " f

end BlockApi

/-! ### Resource facades — `src/lib/client/{Wallet,Token,Block,Cronosid}.ts`

Every facade method evaluates `Client.getApiKey()` in argument position
first, so a missing key throws before `fetch` can run: the facade then
issues no request and logs nothing. -/

namespace Wallet

/-- `Wallet.balance(walletAddress)`:
`return await getBalance(Client.getApiKey(), walletAddress);` -/
def balance (st : ClientState) (walletAddress : String) (f : FetchOutcome) : Outcome :=
  match Client.getApiKey st with
  | .error e => ⟨.error e, [], []⟩
  | .ok k => WalletApi.getBalance k walletAddress f

/-- `Wallet.create()`: `return await createWallet(Client.getApiKey());` -/
def create (st : ClientState) (f : FetchOutcome) : Outcome :=
  match Client.getApiKey st with
  | .error e => ⟨.error e, [], []⟩
  | .ok k => WalletApi.createWallet k f

end Wallet

namespace Token

/-- `Token.getNativeTokenBalance(address)`:
`return await getNativeTokenBalance(Client.getApiKey(), address);` -/
def getNativeTokenBalance (st : ClientState) (address : String) (f : FetchOutcome) : Outcome :=
  match Client.getApiKey st with
  | .error e => ⟨.error e, [], []⟩
  | .ok k => TokenApi.getNativeTokenBalance k address f

/-- `Token.getERC20TokenBalance(address, contractAddress,
blockHeight = 'latest')`. -/
def getERC20TokenBalance (st : ClientState) (address contractAddress : String)
    (f : FetchOutcome) (blockHeight : String := "latest") : Outcome :=
  match Client.getApiKey st with
  | .error e => ⟨.error e, [], []⟩
  | .ok k => TokenApi.getERC20TokenBalance k address contractAddress f blockHeight

end Token

namespace Block

/-- `Block.getBlockByTag(blockTag, txDetail = 'false')`. -/
def getBlockByTag (st : ClientState) (blockTag : String) (f : FetchOutcome)
    (txDetail : String := "false") : Outcome :=
  match Client.getApiKey st with
  | .error e => ⟨.error e, [], []⟩
  | .ok k => BlockApi.getBlockByTag k blockTag f txDetail

end Block

namespace CronosId

/-- `private static readonly supportedChains =
[ChainName.CRONOS_EVM, ChainName.CRONOS_EVM_TESTNET];` -/
def supportedChains : List ChainName := [.CRONOS_EVM, .CRONOS_EVM_TESTNET]

/-- `CronosId.isSupported()`:
`const chainId = Client.getChainId();
return this.supportedChains.includes(chainId as ChainName);`
(`includes(undefined)` is `false` when no chain is stored). -/
def isSupported (st : ClientState) : Bool :=
  match Client.getChainId st with
  | some c => supportedChains.contains c
  | none => false

/-- `CronosId.forwardResolve(cronosId)`.  The chain check precedes the
format check, as in the source.  The delegation line of the source is
`return await resolveName(cronosId);` — a single argument for the
two-parameter `resolveName(apiKey, name)`, so under JS call semantics
the CronosId lands in the `apiKey` parameter and `name` is `undefined`,
which the URL template stringifies as `"undefined"`. -/
def forwardResolve (st : ClientState) (cronosId : String) (f : FetchOutcome) : Outcome :=
  if !(isSupported st) then
    ⟨.error ⟨.validation, "CronosId is not supported on the current chain"⟩, [], []⟩
  else if !(isCronosId cronosId) then
    ⟨.error ⟨.validation, "Invalid CronosId format: " ++ cronosId⟩, [], []⟩
  else
    CronosidApi.resolveName cronosId "undefined" f

/-- `CronosId.reverseResolve(address)`.  The source's delegation line is
`return await lookupAddress(address);` — again one argument for the
two-parameter `lookupAddress(apiKey, address)`. -/
def reverseResolve (st : ClientState) (address : String) (f : FetchOutcome) : Outcome :=
  if !(isSupported st) then
    ⟨.error ⟨.validation, "CronosId is not supported on the current chain"⟩, [], []⟩
  else
    CronosidApi.lookupAddress address "undefined" f

end CronosId

/-! ## Supporting lemmas -/

theorem splitCroAux_ne_nil (n : Nat) (l : List Char) : splitCroAux n l ≠ [] := by
  induction l generalizing n with
  | nil => cases n <;> simp [splitCroAux]
  | cons c cs ih =>
    cases n with
    | zero =>
      rw [splitCroAux]
      split
      · simp
      · split <;> simp
    | succ m => simpa [splitCroAux] using ih m

theorem splitCro_ne_nil (l : List Char) : splitCro l ≠ [] :=
  splitCroAux_ne_nil 0 l

theorem splitCro_headD (l : List Char) :
    (splitCro l).headD [] = beforeFirstCro l := by
  unfold splitCro
  induction l with
  | nil => simp [splitCroAux, beforeFirstCro]
  | cons c cs ih =>
    rw [splitCroAux, beforeFirstCro]
    split
    · rfl
    · rcases h : splitCroAux 0 cs with _ | ⟨hd, tl⟩
      · exact absurd h (splitCroAux_ne_nil 0 cs)
      · simpa [h] using ih

/-! ## Claim theorems -/

/-- C1: For every string `s`, `CronosId.isCronosId s` returns `true` iff
the lowercase form of `s` ends with the literal suffix `'.cro'` and the
substring of the lowercase form before the first occurrence of `'.cro'`
is non-empty; `"alice.cro"` and `"ALICE.CRO"` yield `true`, `"alice"` and
`".cro"` yield `false`.  Totality on all strings holds by construction
(the definitions are total Lean functions), and the one partiality risk
the source runs — `parts[0]` on an empty array — is ruled out by the last
conjunct: `split('.cro')` never returns an empty array. -/
theorem cronosid_isCronosId_spec :
    (∀ s : String, isCronosId s = true ↔
      (endsWithL croChars (jsLower s.data) = true
        ∧ beforeFirstCro (jsLower s.data) ≠ []))
    ∧ isCronosId "alice.cro" = true ∧ isCronosId "ALICE.CRO" = true
    ∧ isCronosId "alice" = false ∧ isCronosId ".cro" = false
    ∧ (∀ s : String, splitCro (jsLower s.data) ≠ []) := by
  refine ⟨fun s => ?_, by decide, by decide, by decide, by decide,
    fun s => splitCro_ne_nil _⟩
  show isCronosIdL s.data = true ↔ _
  unfold isCronosIdL
  simp only [Bool.and_eq_true, decide_eq_true_eq, splitCro_headD,
    List.length_pos]

/-- Closed instance of `cronosid_isCronosId_spec`: its equivalence applied
at the concrete input `"bob.cro"`. -/
theorem cronosid_isCronosId_spec_witness :
    endsWithL croChars (jsLower "bob.cro".data) = true
      ∧ beforeFirstCro (jsLower "bob.cro".data) ≠ [] :=
  (cronosid_isCronosId_spec.1 "bob.cro").mp (by decide)

/-- C10: After `Client.init({apiKey: k, provider: p})` with non-empty `k`,
`getApiKey()` returns exactly `k` and `getProvider()` returns exactly `p`;
`getProvider` is total by its type (`ClientState → Option String`, no
error case) and returns `none` (`undefined`) before any `init`; a second
`init` wins (the values observed are those of the most recent call). -/
theorem client_init_read_roundtrip (st : ClientState) (k k2 : String)
    (p p2 : Option String) (h : k ≠ "") (h2 : k2 ≠ "") :
    Client.getApiKey (Client.init ⟨k, p⟩ st) = .ok k
    ∧ Client.getProvider (Client.init ⟨k, p⟩ st) = p
    ∧ Client.getProvider Client.initialState = none
    ∧ Client.getProvider (Client.init ⟨k, none⟩ st) = none
    ∧ Client.getApiKey (Client.init ⟨k2, p2⟩ (Client.init ⟨k, p⟩ st)) = .ok k2
    ∧ Client.getProvider (Client.init ⟨k2, p2⟩ (Client.init ⟨k, p⟩ st)) = p2 := by
  simp [Client.getApiKey, Client.getProvider, Client.init, Client.initialState, h, h2]

/-- Closed instance of `client_init_read_roundtrip` at
`k = "k1"`, `p = some "p1"`, `k2 = "k2"`, `p2 = none`. -/
theorem client_init_read_roundtrip_witness :
    Client.getApiKey (Client.init ⟨"k1", some "p1"⟩ Client.initialState) = .ok "k1"
    ∧ Client.getProvider (Client.init ⟨"k1", some "p1"⟩ Client.initialState) = some "p1"
    ∧ Client.getProvider Client.initialState = none
    ∧ Client.getProvider (Client.init ⟨"k1", none⟩ Client.initialState) = none
    ∧ Client.getApiKey (Client.init ⟨"k2", none⟩ (Client.init ⟨"k1", some "p1"⟩ Client.initialState)) = .ok "k2"
    ∧ Client.getProvider (Client.init ⟨"k2", none⟩ (Client.init ⟨"k1", some "p1"⟩ Client.initialState)) = none :=
  client_init_read_roundtrip Client.initialState "k1" "k2" (some "p1") none
    (by decide) (by decide)

/-- C8 fails on the code: `Client.init` is a plain overwrite with no
one-time guard, so a second `init` changes what `getApiKey` and
`getProvider` return.  Concretely: after `init({apiKey:"k1",
provider:"p1"})`, a second `init({apiKey:"k2", provider:"p2"})` makes
`getApiKey()` return `"k2"`, not the first value `"k1"`. -/
theorem client_init_not_one_time_counterexample :
    Client.getApiKey (Client.init ⟨"k1", some "p1"⟩ Client.initialState) = .ok "k1"
    ∧ Client.getApiKey
        (Client.init ⟨"k2", some "p2"⟩ (Client.init ⟨"k1", some "p1"⟩ Client.initialState))
        = .ok "k2"
    ∧ Client.getApiKey
        (Client.init ⟨"k2", some "p2"⟩ (Client.init ⟨"k1", some "p1"⟩ Client.initialState))
        ≠ .ok "k1"
    ∧ Client.getProvider
        (Client.init ⟨"k2", some "p2"⟩ (Client.init ⟨"k1", some "p1"⟩ Client.initialState))
        = some "p2" := by
  refine ⟨rfl, rfl, ?_, rfl⟩
  intro h
  exact absurd (Except.ok.inj h) (by decide)

/-- C8 amended: `Client.init` overwrites the stored configuration on
every call; after any sequence of `init` calls, `getApiKey` and
`getProvider` return the values of the most recent one (last write wins),
and `init` touches nothing but the `apiKey` and `provider` fields.
Reads (`getApiKey`, `getProvider`, the facades) take the state as input
and return no new state, so no operation other than `init` modifies the
store — that part of the claim holds by construction. -/
theorem client_init_overwrites (st : ClientState) (c c' : Config)
    (h : c'.apiKey ≠ "") :
    Client.getApiKey (Client.init c' (Client.init c st)) = .ok c'.apiKey
    ∧ Client.getProvider (Client.init c' (Client.init c st)) = c'.provider
    ∧ (Client.init c st).chain = st.chain := by
  simp [Client.getApiKey, Client.getProvider, Client.init, h]

/-- Closed instance of `client_init_overwrites` at two concrete configs. -/
theorem client_init_overwrites_witness :
    Client.getApiKey (Client.init ⟨"b", none⟩ (Client.init ⟨"a", some "p"⟩ Client.initialState)) = .ok "b"
    ∧ Client.getProvider (Client.init ⟨"b", none⟩ (Client.init ⟨"a", some "p"⟩ Client.initialState)) = none
    ∧ (Client.init ⟨"a", some "p"⟩ Client.initialState).chain = Client.initialState.chain :=
  client_init_overwrites Client.initialState ⟨"a", some "p"⟩ ⟨"b", none⟩ (by decide)

/-- C2: Every embedded facade operation that requires the API key
(`Wallet.balance`, `Wallet.create`, `Token.getNativeTokenBalance`,
`Token.getERC20TokenBalance`, `Block.getBlockByTag` — each evaluates
`Client.getApiKey()` in argument position before its endpoint call)
raises the ConfigurationError of `Client.getApiKey` and hands nothing to
`fetch` when the stored key is unset (`init` never called) or the empty
string; the error's message starts with "API key not configured".  With a
non-empty key stored, `Client.getApiKey` returns that key without
error. -/
theorem facade_missing_key (st : ClientState)
    (h : st.apiKey = none ∨ st.apiKey = some "")
    (a ca bt k : String) (f : FetchOutcome) (hk : k ≠ "") :
    Wallet.balance st a f = ⟨.error Client.configErr, [], []⟩
    ∧ Wallet.create st f = ⟨.error Client.configErr, [], []⟩
    ∧ Token.getNativeTokenBalance st a f = ⟨.error Client.configErr, [], []⟩
    ∧ Token.getERC20TokenBalance st a ca f = ⟨.error Client.configErr, [], []⟩
    ∧ Block.getBlockByTag st bt f = ⟨.error Client.configErr, [], []⟩
    ∧ Client.configErr.kind = .config
    ∧ Client.configErr.msg.data.take 22 = "API key not configured".data
    ∧ Client.getApiKey { st with apiKey := some k } = .ok k := by
  have hkey : Client.getApiKey st = .error Client.configErr := by
    rcases h with h | h <;> simp [Client.getApiKey, h]
  refine ⟨?_, ?_, ?_, ?_, ?_, rfl, by decide, ?_⟩
  · simp [Wallet.balance, hkey]
  · simp [Wallet.create, hkey]
  · simp [Token.getNativeTokenBalance, hkey]
  · simp [Token.getERC20TokenBalance, hkey]
  · simp [Block.getBlockByTag, hkey]
  · simp [Client.getApiKey, hk]

/-- Closed instance of `facade_missing_key`: the store holds the empty
key (an `init({apiKey: ""})` outcome). -/
theorem facade_missing_key_witness :
    Wallet.balance ⟨some "", none, none⟩ "0xA" (.resp 200 (.parsed Json.null))
      = ⟨.error Client.configErr, [], []⟩
    ∧ Client.getApiKey ⟨some "key", none, none⟩ = .ok "key" :=
  ⟨(facade_missing_key ⟨some "", none, none⟩ (Or.inr rfl) "0xA" "0xC" "latest" "key"
      (.resp 200 (.parsed Json.null)) (by decide)).1,
    (facade_missing_key ⟨some "", none, none⟩ (Or.inr rfl) "0xA" "0xC" "latest" "key"
      (.resp 200 (.parsed Json.null)) (by decide)).2.2.2.2.2.2.2⟩

/-- C3: When the stored chain identity is outside the two-member
allow-list `{CRONOS_EVM, CRONOS_EVM_TESTNET}` (or unset), both
`CronosId.forwardResolve` and `CronosId.reverseResolve` throw the
ValidationError "CronosId is not supported on the current chain" and
hand nothing to `fetch`; with a supported chain, `forwardResolve` on a
string failing `isCronosId` throws the format ValidationError, again
without a request.  The first conjunct holds for every name, including
invalid ones, which is exactly the claimed precedence of the chain check
over the format check. -/
theorem cronosid_chain_gating (st st2 : ClientState) (nm nm2 addr : String)
    (f f2 f3 : FetchOutcome)
    (h1 : st.chain ≠ some ChainName.CRONOS_EVM
      ∧ st.chain ≠ some ChainName.CRONOS_EVM_TESTNET)
    (h2 : st2.chain = some ChainName.CRONOS_EVM
      ∨ st2.chain = some ChainName.CRONOS_EVM_TESTNET)
    (hn : isCronosId nm2 = false) :
    CronosId.forwardResolve st nm f
      = ⟨.error ⟨.validation, "CronosId is not supported on the current chain"⟩, [], []⟩
    ∧ CronosId.reverseResolve st addr f2
      = ⟨.error ⟨.validation, "CronosId is not supported on the current chain"⟩, [], []⟩
    ∧ CronosId.forwardResolve st2 nm2 f3
      = ⟨.error ⟨.validation, "Invalid CronosId format: " ++ nm2⟩, [], []⟩ := by
  have hsup : CronosId.isSupported st = false := by
    rcases hc : st.chain with _ | c
    · simp [CronosId.isSupported, Client.getChainId, hc]
    · cases c with
      | CRONOS_EVM => exact absurd hc h1.1
      | CRONOS_EVM_TESTNET => exact absurd hc h1.2
      | CRONOS_ZKEVM =>
        simp [CronosId.isSupported, Client.getChainId, hc, CronosId.supportedChains]
      | CRONOS_ZKEVM_TESTNET =>
        simp [CronosId.isSupported, Client.getChainId, hc, CronosId.supportedChains]
  have hsup2 : CronosId.isSupported st2 = true := by
    rcases h2 with h2 | h2 <;>
      simp [CronosId.isSupported, Client.getChainId, h2, CronosId.supportedChains]
  exact ⟨by simp [CronosId.forwardResolve, hsup],
    by simp [CronosId.reverseResolve, hsup],
    by simp [CronosId.forwardResolve, hsup2, hn]⟩

/-- Closed instance of `cronosid_chain_gating`: a ZK EVM chain with the
invalid name `".cro"` gets the chain-support error (precedence), and a
supported chain with `"alice"` gets the format error. -/
theorem cronosid_chain_gating_witness :
    CronosId.forwardResolve ⟨some "k", none, some .CRONOS_ZKEVM⟩ ".cro"
        (.resp 200 (.parsed Json.null))
      = ⟨.error ⟨.validation, "CronosId is not supported on the current chain"⟩, [], []⟩
    ∧ CronosId.forwardResolve ⟨some "k", none, some .CRONOS_EVM⟩ "alice"
        (.resp 200 (.parsed Json.null))
      = ⟨.error ⟨.validation, "Invalid CronosId format: " ++ "alice"⟩, [], []⟩ :=
  ⟨(cronosid_chain_gating ⟨some "k", none, some .CRONOS_ZKEVM⟩
      ⟨some "k", none, some .CRONOS_EVM⟩ ".cro" "alice" "0xA"
      (.resp 200 (.parsed Json.null)) (.resp 200 (.parsed Json.null))
      (.resp 200 (.parsed Json.null))
      (by decide) (Or.inl rfl) (by decide)).1,
    (cronosid_chain_gating ⟨some "k", none, some .CRONOS_ZKEVM⟩
      ⟨some "k", none, some .CRONOS_EVM⟩ ".cro" "alice" "0xA"
      (.resp 200 (.parsed Json.null)) (.resp 200 (.parsed Json.null))
      (.resp 200 (.parsed Json.null))
      (by decide) (Or.inl rfl) (by decide)).2.2⟩

/-- C4 names the intended behaviour, but the code slips: the delegation
line of `CronosId.forwardResolve` is `return await resolveName(cronosId);`
— one argument for the two-parameter `resolveName(apiKey, name)` whose
own JSDoc says `apiKey` is "The API key used for authentication with the
server" (and TypeScript rejects the arity mismatch).  Evaluated at a
configured key `"k"`, a supported chain and the valid name `"alice.cro"`,
the one request issued carries `x-api-key: alice.cro` — the name, not the
configured key — and its path ends in `/cronosid/resolve/undefined`
instead of `/cronosid/resolve/alice.cro`. -/
theorem cronosid_forwardResolve_misroutes :
    CronosId.forwardResolve ⟨some "k", none, some .CRONOS_EVM⟩ "alice.cro"
        (.resp 200 (.parsed (Json.obj [("resolved", Json.str "0xabc")])))
      = ⟨.ok (Json.obj [("resolved", Json.str "0xabc")]),
          [⟨"GET",
            BASE_URL ++ "/api/v1/cdc-developer-platform/cronosid/resolve/" ++ "undefined",
            [("Content-Type", "application/json"), ("x-api-key", "alice.cro")], none⟩],
          []⟩
    ∧ "alice.cro" ≠ "k" := by
  exact ⟨rfl, by decide⟩

/-- C5 fails on the code in two ways, both visible at one input.  With
status 404 and body `{"error": ""}` the `error` field is present, yet
`errorBody.error || ...` is falsy on the empty string, so the code falls
back to the synthesized message; and the catch block rethrows every
failure as `Failed to fetch native token balance: <message>`, so the
final message is never literally equal to the `error` field.  The
operation's error message here is the fallback text behind the wrap
prefix — not the present field's value `""`. -/
theorem remote_error_field_counterexample :
    jsonLookup [("error", Json.str "")] "error" = some (Json.str "")
    ∧ (Token.getNativeTokenBalance ⟨some "k", none, none⟩ "0xA"
        (.resp 404 (.parsed (Json.obj [("error", Json.str "")])))).result
      = .error ⟨.remote, "Failed to fetch native token balance: HTTP error! status: 404"⟩
    ∧ "Failed to fetch native token balance: HTTP error! status: 404" ≠ "" := by
  exact ⟨rfl, rfl, by decide⟩

/-- C5 amended: on a non-2xx status with a JSON-object body, the
operation fails with a RemoteError whose message is the operation's wrap
prefix followed by the body's `error` field when that field is present
and truthy (e.g. a non-empty string), and otherwise followed by
`HTTP error! status: <code>`; in particular a 404 with
`{"error":"not found"}` yields a message carrying "not found". -/
theorem remote_error_message_amended (st : ClientState) (k a s : String)
    (status : Nat) (fs : List (String × Json))
    (hk : Client.getApiKey st = .ok k) (hs : respOk status = false) :
    (Token.getNativeTokenBalance st a (.resp status (.parsed (Json.obj fs)))).result
      = .error ⟨.remote,
          "Failed to fetch native token balance: "
            ++ serverMsg status (jsonLookup fs "error")⟩
    ∧ (jsonLookup fs "error" = some (Json.str s) → s ≠ "" →
        serverMsg status (jsonLookup fs "error") = s)
    ∧ (jsonLookup fs "error" = none →
        serverMsg status (jsonLookup fs "error")
          = "HTTP error! status: " ++ toString status)
    ∧ (Token.getNativeTokenBalance ⟨some "k", none, none⟩ "0xA"
        (.resp 404 (.parsed (Json.obj [("error", Json.str "not found")])))).result
      = .error ⟨.remote, "Failed to fetch native token balance: not found"⟩ := by
  refine ⟨?_, ?_, ?_, rfl⟩
  · simp [Token.getNativeTokenBalance, TokenApi.getNativeTokenBalance, dispatch,
      hk, hs, getField]
  · intro h hne
    simp [serverMsg, h, truthy, jsString, hne]
  · intro h
    simp [serverMsg, h]

/-- Closed instance of `remote_error_message_amended`: status 500, body
`{"error":"boom"}`. -/
theorem remote_error_message_amended_witness :
    (Token.getNativeTokenBalance ⟨some "k", none, none⟩ "0xA"
        (.resp 500 (.parsed (Json.obj [("error", Json.str "boom")])))).result
      = .error ⟨.remote,
          "Failed to fetch native token balance: "
            ++ serverMsg 500 (jsonLookup [("error", Json.str "boom")] "error")⟩ :=
  (remote_error_message_amended ⟨some "k", none, none⟩ "k" "0xA" "boom" 500
    [("error", Json.str "boom")] rfl rfl).1

/-- C6: For every 2xx status and every parsed JSON body `v`, the embedded
facade operations return exactly `v` — the parsed body, unmodified, with
no reshaping and no further validation. -/
theorem success_roundtrip_identity (st : ClientState) (k a : String)
    (status : Nat) (v : Json)
    (hk : Client.getApiKey st = .ok k) (hs : respOk status = true) :
    (Token.getNativeTokenBalance st a (.resp status (.parsed v))).result = .ok v
    ∧ (Wallet.balance st a (.resp status (.parsed v))).result = .ok v
    ∧ (Wallet.create st (.resp status (.parsed v))).result = .ok v
    ∧ (Block.getBlockByTag st a (.resp status (.parsed v))).result = .ok v := by
  refine ⟨?_, ?_, ?_, ?_⟩ <;>
    simp [Token.getNativeTokenBalance, TokenApi.getNativeTokenBalance,
      Wallet.balance, WalletApi.getBalance, Wallet.create, WalletApi.createWallet,
      Block.getBlockByTag, BlockApi.getBlockByTag, dispatch, hk, hs]

/-- Closed instance of `success_roundtrip_identity`: HTTP 200 with body
`{"foo":1}` comes back as that same object. -/
theorem success_roundtrip_identity_witness :
    (Token.getNativeTokenBalance ⟨some "k", none, none⟩ "0xA"
        (.resp 200 (.parsed (Json.obj [("foo", Json.num 1)])))).result
      = .ok (Json.obj [("foo", Json.num 1)]) :=
  (success_roundtrip_identity ⟨some "k", none, none⟩ "k" "0xA" 200
    (Json.obj [("foo", Json.num 1)]) rfl rfl).1

/-- C7 fails on the code: on a network failure the thrown message is
`Failed to fetch native token balance: boom` — an English operation
prefix, not the claimed `[moduleName/operationName] - <cause>` form
(every string of that form starts with `'['`; this message starts with
`'F'`).  The bracketed tag goes to `console.error`, not into the thrown
error. -/
theorem transport_error_tag_counterexample :
    (Token.getNativeTokenBalance ⟨some "k", none, none⟩ "0xA" (.netErr "boom")).result
      = .error ⟨.transport, "Failed to fetch native token balance: boom"⟩
    ∧ "Failed to fetch native token balance: boom".data.head? = some 'F'
    ∧ 'F' ≠ '['
    ∧ (Token.getNativeTokenBalance ⟨some "k", none, none⟩ "0xA" (.netErr "boom")).logs
      = ["[tokenApi/getNativeTokenBalance] - boom"] := by
  exact ⟨rfl, rfl, by decide, rfl⟩

/-- C7 amended: every network or parse failure fails with a
TransportError that wraps the underlying cause message behind the
operation-identifying prefix `Failed to <operation>: `; the
`[moduleName/operationName] - <cause>` tag is written to the console
error log, not into the thrown message; nothing is swallowed — the
operation's result is an error in every failure branch. -/
theorem transport_error_wrap_amended (st : ClientState) (k a cause pm : String)
    (hk : Client.getApiKey st = .ok k) :
    (Token.getNativeTokenBalance st a (.netErr cause)).result
      = .error ⟨.transport, "Failed to fetch native token balance: " ++ cause⟩
    ∧ (Token.getNativeTokenBalance st a (.netErr cause)).logs
      = ["[tokenApi/getNativeTokenBalance] - " ++ cause]
    ∧ (Token.getNativeTokenBalance st a (.resp 200 (.malformed pm))).result
      = .error ⟨.transport, "Failed to fetch native token balance: " ++ pm⟩
    ∧ (Token.getNativeTokenBalance st a (.resp 200 (.malformed pm))).logs
      = ["[tokenApi/getNativeTokenBalance] - " ++ pm]
    ∧ (Wallet.balance st a (.netErr cause)).result
      = .error ⟨.transport, "Failed to fetch wallet balance: " ++ cause⟩
    ∧ (Wallet.balance st a (.netErr cause)).logs
      = ["[walletApi/getBalance] - " ++ cause] := by
  refine ⟨?_, ?_, ?_, ?_, ?_, ?_⟩ <;>
    simp [Token.getNativeTokenBalance, TokenApi.getNativeTokenBalance,
      Wallet.balance, WalletApi.getBalance, dispatch, hk]

/-- Closed instance of `transport_error_wrap_amended` at cause
`"timeout"`. -/
theorem transport_error_wrap_amended_witness :
    (Token.getNativeTokenBalance ⟨some "k", none, none⟩ "0xA" (.netErr "timeout")).result
      = .error ⟨.transport, "Failed to fetch native token balance: " ++ "timeout"⟩ :=
  (transport_error_wrap_amended ⟨some "k", none, none⟩ "k" "0xA" "timeout" "bad json"
    rfl).1

/-- The dispatcher hands exactly one request to `fetch`, whatever the
transport does with it. -/
theorem dispatch_sent (req : Request) (tag wrap : String) (f : FetchOutcome) :
    (dispatch req tag wrap f).sent = [req] := by
  rcases f with m | ⟨status, b⟩
  · rfl
  · rcases b with m | v
    · simp only [dispatch]
      split <;> rfl
    · simp only [dispatch]
      split
      · rfl
      · split <;> rfl

/-- C9: With a configured key, `Block.getBlockByTag(blockTag)` with
`txDetail` omitted issues one request whose query string carries
`txDetail=false`, and `Token.getERC20TokenBalance` with `blockHeight`
omitted issues one request whose query string carries
`blockHeight=latest` — the defaults declared at the facade and endpoint
signatures. -/
theorem default_query_values (st : ClientState) (k bt a ca : String)
    (f f2 : FetchOutcome) (hk : Client.getApiKey st = .ok k) :
    (Block.getBlockByTag st bt f).sent
      = [⟨"GET",
          BASE_URL ++ "/api/v1/cdc-developer-platform/block/block-tag?blockTag="
            ++ bt ++ "&txDetail=" ++ "false",
          stdHeaders k, none⟩]
    ∧ (∃ p, BASE_URL ++ "/api/v1/cdc-developer-platform/block/block-tag?blockTag="
            ++ bt ++ "&txDetail=" ++ "false" = p ++ "txDetail=false")
    ∧ (Token.getERC20TokenBalance st a ca f2).sent
      = [⟨"GET",
          BASE_URL
            ++ "/api/v1/cdc-developer-platform/token/erc20-token-balance?walletAddress="
            ++ a ++ "&contractAddress=" ++ ca ++ "&blockHeight=" ++ "latest",
          stdHeaders k, none⟩]
    ∧ (∃ p, BASE_URL
            ++ "/api/v1/cdc-developer-platform/token/erc20-token-balance?walletAddress="
            ++ a ++ "&contractAddress=" ++ ca ++ "&blockHeight=" ++ "latest"
          = p ++ "blockHeight=latest") := by
  refine ⟨?_, ?_, ?_, ?_⟩
  · simp [Block.getBlockByTag, BlockApi.getBlockByTag, hk, dispatch_sent]
  · exact ⟨BASE_URL ++ "/api/v1/cdc-developer-platform/block/block-tag?blockTag="
      ++ bt ++ "&", by simp [String.append_assoc]⟩
  · simp [Token.getERC20TokenBalance, TokenApi.getERC20TokenBalance, hk, dispatch_sent]
  · exact ⟨BASE_URL
      ++ "/api/v1/cdc-developer-platform/token/erc20-token-balance?walletAddress="
      ++ a ++ "&contractAddress=" ++ ca ++ "&", by simp [String.append_assoc]⟩

/-- Closed instance of `default_query_values` at concrete inputs. -/
theorem default_query_values_witness :
    (Block.getBlockByTag ⟨some "key", none, none⟩ "latest" (.netErr "x")).sent
      = [⟨"GET",
          BASE_URL ++ "/api/v1/cdc-developer-platform/block/block-tag?blockTag="
            ++ "latest" ++ "&txDetail=" ++ "false",
          stdHeaders "key", none⟩] :=
  (default_query_values ⟨some "key", none, none⟩ "key" "latest" "0xA" "0xC"
    (.netErr "x") (.netErr "x") rfl).1
